import Mathlib

/-!
# Summariser CLI: a shallow embedding of `main.go`

The program is a single `main` function.  Everything it touches outside its
own text (the environment, the file system, the client library, the clock and
the standard formatting verbs) is collected in a `World` record, and one run of
`main` is a pure function from a `World` and the parsed flags to a `Run`
record holding the observable behaviour: the ordered trace of external calls,
the text on standard output, the messages handed to the standard logger and
the way the process ended.

Conventions

* Go strings are modelled as Lean strings; only equality and concatenation
  are ever used on them.
* `Flags` holds the flag values after a successful `flag.Parse()`; a command
  line that `flag.Parse()` rejects never reaches the code modelled here.
* Go `int` values (`-max-tokens`, the usage counters) are `Int`; the program
  performs no arithmetic on them apart from the floating point division that
  is left to `World.fmtRate`.
* `log.Fatal` / `log.Fatalf` write one message and call `os.Exit(1)`; deferred
  calls do not run.  A run-time panic runs the deferred calls and ends the
  process with status 2.  Returning from `main` runs the deferred calls and
  ends the process with status 0.
-/

namespace Summariser

/-! ## Data model -/

/-- Values of the four flags after `flag.Parse()` (lines 18-22). -/
structure Flags where
  inputFile : String
  inputText : String
  model : String
  maxTokens : Int
deriving DecidableEq

/-- Default of the `-model` flag (line 16). -/
def DEFAULT_CLAUDE_MODEL : String := "claude-3-haiku-20240307"

/-- Flag values when no flag is given on the command line (lines 18-21). -/
def defaultFlags : Flags :=
  { inputFile := "", inputText := "", model := DEFAULT_CLAUDE_MODEL, maxTokens := 200 }

/-- Message roles of the client library; `main` only uses `MessagesRoleUser`. -/
inductive MessagesRole where
  | MessagesRoleUser
  | MessagesRoleAssistant
deriving DecidableEq

/-- One element of `RequestBodyMessages.Messages` (lines 62-65). -/
structure RequestBodyMessagesMessages where
  Role : MessagesRole
  Content : String
deriving DecidableEq

/-- The request value built at lines 57-68. -/
structure RequestBodyMessages where
  Model : String
  MaxTokens : Int
  System : String
  Messages : List RequestBodyMessagesMessages
  Stream : Bool
deriving DecidableEq

/-- One element of a response chunk's `Content` slice. -/
structure ContentBlock where
  Text : String
deriving DecidableEq

/-- The `Usage` field of the stream handle's response body. -/
structure Usage where
  InputTokens : Int
  OutputTokens : Int
deriving DecidableEq

/-- Outcome of one `stream.Recv()` call: a chunk with its `Content` slice,
the end-of-stream signal `io.EOF`, or any other error. -/
inductive RecvResult where
  | chunk (content : List ContentBlock)
  | eof
  | error (err : String)
deriving DecidableEq

/-- An opened stream as the client library presents it to `main`: the results
of the successive `Recv` calls, and the usage counters found on the handle
when they are read after the loop.  When `recvs` is used up the next `Recv`
never returns (the remote side stalls). -/
structure StreamHandle where
  recvs : List RecvResult
  usage : Usage
deriving DecidableEq

/-- Everything outside the program text that one run depends on. -/
structure World where
  /-- Result of `os.LookupEnv("ANTHROPIC_API_KEY")`. -/
  lookupEnv : Option String
  /-- Result of `os.ReadFile`, by path. -/
  readFile : String → Except String String
  /-- Result of `client.CreateMessagesStream`, by API key and request. -/
  createMessagesStream : String → RequestBodyMessages → Except String StreamHandle
  /-- Value of `time.Since(start)` at line 88, in nanoseconds. -/
  elapsed : Int
  /-- Rendering by `%.2f` of `float64(outputTokens)/elapsed.Seconds()`. -/
  fmtRate : Int → Int → String
  /-- Rendering by `%s` of a `time.Duration`. -/
  fmtDuration : Int → String

/-- External calls made by `main`, in the order they happen. -/
inductive Event where
  | newClient (apiKey : String)
  | readFile (path : String)
  | createMessagesStream (req : RequestBodyMessages)
  | recv
  | close
deriving DecidableEq

/-- How the process ends. -/
inductive Exit where
  /-- `main` returned. -/
  | returned
  /-- One of the `log.Fatal` calls ran (`os.Exit(1)`). -/
  | fatal
  /-- Index out of range at line 85. -/
  | panicked
  /-- A `Recv` call never returned. -/
  | blocked
deriving DecidableEq

/-- Process exit status, when the process exits. -/
def Exit.status : Exit → Option Nat
  | .returned => some 0
  | .fatal => some 1
  | .panicked => some 2
  | .blocked => none

/-- Observable behaviour of one run. -/
structure Run where
  events : List Event
  stdout : String
  /-- Messages handed to the standard logger (or the run-time's panic report),
  without the logger's time stamp. -/
  stderr : List String
  exit : Exit
deriving DecidableEq

/-! ## The program -/

/-- The raw string literal of lines 36-38. -/
def systemPrompt : String :=
  "You are a text summarization assistant. \n\tGenerate a concise summary of the given input text while preserving the key information and main points. \n\tProvide the summary in three bullet points, totalling 100 words or less."

/-- Lines 40-53: the file-system calls made and either the message of the
fatal log call or the value of `userMessage`. -/
def resolveInput (w : World) (f : Flags) : List Event × Except String String :=
  if f.inputFile ≠ "" then
    match w.readFile f.inputFile with
    | .error err => ([.readFile f.inputFile], .error ("Error reading input file: " ++ err ++ "\n"))
    | .ok content => ([.readFile f.inputFile], .ok content)
  else if f.inputText ≠ "" then
    ([], .ok f.inputText)
  else
    ([], .error "Either input-file or input-text must be provided")

/-- Lines 57-68. -/
def buildRequest (f : Flags) (userMessage : String) : RequestBodyMessages :=
  { Model := f.model
    MaxTokens := f.maxTokens
    System := systemPrompt
    Messages := [{ Role := .MessagesRoleUser, Content := userMessage }]
    Stream := true }

/-- How the `for` loop of lines 77-86 is left. -/
inductive LoopExit where
  | eof
  | streamError (err : String)
  | indexOutOfRange
  | blocked
deriving DecidableEq

/-- State threaded through the loop: number of `Recv` calls made and the text
printed so far. -/
structure LoopState where
  recvCalls : Nat
  printed : String
deriving DecidableEq

/-- Lines 77-86.  Each iteration calls `Recv` once; `io.EOF` breaks, another
error is fatal, and a chunk has `Content[0].Text` printed, which panics when
`Content` is empty. -/
def recvLoop : List RecvResult → LoopState → LoopState × LoopExit
  | [], st => (st, .blocked)
  | .eof :: _, st => ({ st with recvCalls := st.recvCalls + 1 }, .eof)
  | .error err :: _, st => ({ st with recvCalls := st.recvCalls + 1 }, .streamError err)
  | .chunk [] :: _, st => ({ st with recvCalls := st.recvCalls + 1 }, .indexOutOfRange)
  | .chunk (b :: _) :: rest, st =>
      recvLoop rest { recvCalls := st.recvCalls + 1, printed := st.printed ++ b.Text }

/-- Lines 90-94: the four `Printf` calls after the loop. -/
def statsBlock (w : World) (u : Usage) : String :=
  ("\n\nTokens generated: " ++ toString u.OutputTokens ++ "\n")
    ++ ("\n\nInput token count: " ++ toString u.InputTokens ++ "\n")
    ++ ("Output tokens per Second: " ++ w.fmtRate u.OutputTokens w.elapsed ++ "\n")
    ++ ("Total Execution Time: " ++ w.fmtDuration w.elapsed ++ "\n")

/-- Lines 74-95: what happens once the stream is open.  `before` is the trace
up to and including the `CreateMessagesStream` call. -/
def consumeStream (w : World) (before : List Event) (s : StreamHandle) : Run :=
  match recvLoop s.recvs { recvCalls := 0, printed := "" } with
  | (st, .eof) =>
      { events := before ++ List.replicate st.recvCalls Event.recv ++ [Event.close]
        stdout := st.printed ++ statsBlock w s.usage
        stderr := []
        exit := .returned }
  | (st, .streamError err) =>
      { events := before ++ List.replicate st.recvCalls Event.recv
        stdout := st.printed
        stderr := ["Stream error: " ++ err ++ "\n"]
        exit := .fatal }
  | (st, .indexOutOfRange) =>
      { events := before ++ List.replicate st.recvCalls Event.recv ++ [Event.close]
        stdout := st.printed
        stderr := ["panic: runtime error: index out of range [0] with length 0"]
        exit := .panicked }
  | (st, .blocked) =>
      { events := before ++ List.replicate st.recvCalls Event.recv
        stdout := st.printed
        stderr := []
        exit := .blocked }

/-- The function `main` (lines 15-95). -/
def main (w : World) (f : Flags) : Run :=
  match w.lookupEnv with
  | none =>
      { events := []
        stdout := ""
        stderr := ["ANTHROPIC_API_KEY environment variable is not set"]
        exit := .fatal }
  | some apiKey =>
      match resolveInput w f with
      | (reads, .error msg) =>
          { events := Event.newClient apiKey :: reads
            stdout := ""
            stderr := [msg]
            exit := .fatal }
      | (reads, .ok userMessage) =>
          let req := buildRequest f userMessage
          match w.createMessagesStream apiKey req with
          | .error err =>
              { events := Event.newClient apiKey :: reads ++ [Event.createMessagesStream req]
                stdout := ""
                stderr := ["ChatCompletion error: " ++ err ++ "\n"]
                exit := .fatal }
          | .ok s =>
              consumeStream w (Event.newClient apiKey :: reads ++ [Event.createMessagesStream req]) s

/-! ## Observations on a run -/

/-- Whether an external call goes to the network. -/
def Event.isNetworkCall : Event → Bool
  | .createMessagesStream _ => true
  | .recv => true
  | _ => false

/-- The network calls of a run. -/
def networkCalls (r : Run) : List Event :=
  r.events.filter Event.isNetworkCall

/-- The requests passed to `CreateMessagesStream` during a run. -/
def requestsIssued (r : Run) : List RequestBodyMessages :=
  r.events.filterMap fun e =>
    match e with
    | .createMessagesStream req => some req
    | _ => none

/-- The paths passed to `os.ReadFile` during a run. -/
def filesRead (r : Run) : List String :=
  r.events.filterMap fun e =>
    match e with
    | .readFile p => some p
    | _ => none

/-- Concatenation of a list of strings, in order. -/
def concatTexts : List String → String
  | [] => ""
  | t :: ts => t ++ concatTexts ts

/-- Text of the first fragment of a chunk (empty when there is none). -/
def firstText : List ContentBlock → String
  | [] => ""
  | b :: _ => b.Text

/-- Texts of all the fragments of a chunk, concatenated. -/
def allText (c : List ContentBlock) : String :=
  concatTexts (c.map ContentBlock.Text)

/-- The run reaches line 74 with stream handle `s`: the credential is `apiKey`,
input resolution gives `userMessage` and the open call succeeds. -/
def StreamOpened (w : World) (f : Flags) (apiKey userMessage : String) (s : StreamHandle) : Prop :=
  w.lookupEnv = some apiKey ∧ (resolveInput w f).2 = .ok userMessage ∧
    w.createMessagesStream apiKey (buildRequest f userMessage) = .ok s

/-- A line of output: the text followed by a newline. -/
def line (t : String) : String := t ++ "\n"

/-- Layout of a statistics block: `gapBefore`, the line with the output token
count, `gapBetween`, the line with the input token count, the throughput line
and the elapsed-time line. -/
def statsLayout (gapBefore gapBetween : String) (w : World) (u : Usage) : String :=
  gapBefore ++ line ("Tokens generated: " ++ toString u.OutputTokens)
    ++ gapBetween ++ line ("Input token count: " ++ toString u.InputTokens)
    ++ line ("Output tokens per Second: " ++ w.fmtRate u.OutputTokens w.elapsed)
    ++ line ("Total Execution Time: " ++ w.fmtDuration w.elapsed)

/-- The statistics block as the specification words it: two blank lines, the
output token line, one blank line, the input token line, the throughput line
and the elapsed-time line. -/
def statsBlockAsSpecified (w : World) (u : Usage) : String :=
  statsLayout "\n\n" "\n" w u

/-- The trace of a run up to and including the `CreateMessagesStream` call. -/
def traceToOpen (w : World) (f : Flags) (apiKey userMessage : String) : List Event :=
  Event.newClient apiKey :: (resolveInput w f).1
    ++ [Event.createMessagesStream (buildRequest f userMessage)]

/-! ## Sample worlds -/

/-- Usage totals of the end-to-end scenario: `input:12, output:6`. -/
def sampleUsage : Usage := { InputTokens := 12, OutputTokens := 6 }

/-- A stream of the given `Recv` results with the usage totals `sampleUsage`. -/
def sampleHandle (recvs : List RecvResult) : StreamHandle :=
  { recvs := recvs, usage := sampleUsage }

/-- A world with the credential set, one readable file `notes.txt`, and a
remote side answering every request with the given `Recv` results. -/
def sampleWorld (recvs : List RecvResult) : World :=
  { lookupEnv := some "sk-test"
    readFile := fun p => if p = "notes.txt" then .ok "file body" else .error ("open " ++ p ++ ": no such file or directory")
    createMessagesStream := fun _ _ => .ok (sampleHandle recvs)
    elapsed := 2000000000
    fmtRate := fun _ _ => "3.00"
    fmtDuration := fun _ => "2s" }

/-- The two chunks of the end-to-end scenario followed by end-of-stream. -/
def greetingRecvs : List RecvResult :=
  [.chunk [{ Text := "- Greeting" }], .chunk [{ Text := " noted." }], .eof]

/-- Flags of the end-to-end scenario: `-input-text` alone. -/
def helloFlags : Flags :=
  { defaultFlags with inputText := "Hello world, this is a test." }

/-- Both input flags given, the file being readable. -/
def bothFlags : Flags :=
  { defaultFlags with inputFile := "notes.txt", inputText := "literal" }

/-- An input file that does not exist, with `-input-text` given as well. -/
def missingFileFlags : Flags :=
  { defaultFlags with inputFile := "missing.txt", inputText := "literal" }

/-- The sample world without the credential. -/
def noKeyWorld : World :=
  { sampleWorld greetingRecvs with lookupEnv := none }

/-- One chunk, then a stream error, then a chunk that is never received. -/
def failingRecvs : List RecvResult :=
  [.chunk [{ Text := "- Greeting" }], .error "unexpected EOF", .chunk [{ Text := " noted." }]]

/-- One chunk, then end-of-stream. -/
def shortRecvs : List RecvResult :=
  [.chunk [{ Text := "- Greeting" }], .eof]

/-- One chunk carrying two fragments, then end-of-stream. -/
def twoFragmentRecvs : List RecvResult :=
  [.chunk [{ Text := "- Greeting" }, { Text := " noted." }], .eof]

/-- One chunk carrying no fragment, then end-of-stream. -/
def emptyChunkRecvs : List RecvResult :=
  [.chunk [], .eof]

/-! ## Lemmas on the trace and on the receive loop -/

theorem requests_replicate_recv (n : Nat) :
    (List.replicate n Event.recv).filterMap (fun e =>
      match e with
      | .createMessagesStream req => some req
      | _ => none) = [] := by
  induction n with
  | zero => rfl
  | succ n ih => simp [List.replicate_succ]

/-- The exit of a run after the stream is open is decided by the loop. -/
theorem consumeStream_exit (w : World) (before : List Event) (s : StreamHandle) :
    (consumeStream w before s).exit =
      match (recvLoop s.recvs { recvCalls := 0, printed := "" }).2 with
      | .eof => Exit.returned
      | .streamError _ => Exit.fatal
      | .indexOutOfRange => Exit.panicked
      | .blocked => Exit.blocked := by
  unfold consumeStream
  split <;> simp_all

/-- Consuming the stream issues no further request. -/
theorem requestsIssued_consumeStream (w : World) (before : List Event) (s : StreamHandle) :
    requestsIssued (consumeStream w before s) =
      before.filterMap (fun e =>
        match e with
        | .createMessagesStream req => some req
        | _ => none) := by
  unfold consumeStream requestsIssued
  split <;> simp [List.filterMap_append, requests_replicate_recv]

/-- A run that reaches line 74 continues with `consumeStream`. -/
theorem main_of_opened {w : World} {f : Flags} {apiKey userMessage : String} {s : StreamHandle}
    (h : StreamOpened w f apiKey userMessage s) :
    main w f = consumeStream w (traceToOpen w f apiKey userMessage) s := by
  unfold traceToOpen
  obtain ⟨hkey, hin, hopen⟩ := h
  unfold main
  rw [hkey]
  rcases hri : resolveInput w f with ⟨reads, res⟩
  rw [hri] at hin
  simp only at hin
  subst hin
  simp only [hopen]

/-- Chunks that all carry a fragment are consumed one `Recv` call each, and
their first fragments are appended to the printed text in order. -/
theorem recvLoop_chunks (cs : List (List ContentBlock)) (hne : ∀ c ∈ cs, c ≠ [])
    (tail : List RecvResult) (st : LoopState) :
    recvLoop (cs.map RecvResult.chunk ++ tail) st =
      recvLoop tail
        { recvCalls := st.recvCalls + cs.length
          printed := st.printed ++ concatTexts (cs.map firstText) } := by
  induction cs generalizing st with
  | nil => simp [concatTexts]
  | cons c cs ih =>
    have hc : c ≠ [] := hne c (List.mem_cons_self _ _)
    have hcs : ∀ d ∈ cs, d ≠ [] := fun d hd => hne d (List.mem_cons_of_mem _ hd)
    cases c with
    | nil => exact absurd rfl hc
    | cons b bs =>
      have hlen : st.recvCalls + 1 + cs.length = st.recvCalls + (cs.length + 1) := by omega
      simp only [List.map_cons, List.cons_append]
      rw [recvLoop, ih hcs]
      simp only [List.length_cons, concatTexts, firstText, String.append_assoc, hlen]

/-- The loop never panics when every chunk it is given carries a fragment. -/
theorem recvLoop_no_panic (rs : List RecvResult)
    (hne : ∀ c, RecvResult.chunk c ∈ rs → c ≠ []) (st : LoopState) :
    (recvLoop rs st).2 ≠ LoopExit.indexOutOfRange := by
  induction rs generalizing st with
  | nil => simp [recvLoop]
  | cons r rs ih =>
    cases r with
    | eof => simp [recvLoop]
    | error err => simp [recvLoop]
    | chunk c =>
      cases c with
      | nil => exact absurd rfl (hne [] (List.mem_cons_self _ _))
      | cons b bs =>
        simp only [recvLoop]
        exact ih (fun c hc => hne c (List.mem_cons_of_mem _ hc)) _

/-- A run whose stream gives chunks with a fragment each and then ends. -/
theorem main_clean {w : World} {f : Flags} {apiKey userMessage : String} {s : StreamHandle}
    (hopen : StreamOpened w f apiKey userMessage s) (cs : List (List ContentBlock))
    (rest : List RecvResult) (hrecvs : s.recvs = cs.map RecvResult.chunk ++ RecvResult.eof :: rest)
    (hne : ∀ c ∈ cs, c ≠ []) :
    main w f =
      { events := traceToOpen w f apiKey userMessage
          ++ List.replicate (cs.length + 1) Event.recv ++ [Event.close]
        stdout := concatTexts (cs.map firstText) ++ statsBlock w s.usage
        stderr := []
        exit := Exit.returned } := by
  rw [main_of_opened hopen]
  unfold consumeStream
  rw [hrecvs, recvLoop_chunks cs hne]
  simp [recvLoop]

/-- A run whose stream gives chunks with a fragment each and then fails. -/
theorem main_stream_error {w : World} {f : Flags} {apiKey userMessage : String}
    {s : StreamHandle} (hopen : StreamOpened w f apiKey userMessage s)
    (cs : List (List ContentBlock)) (err : String) (rest : List RecvResult)
    (hrecvs : s.recvs = cs.map RecvResult.chunk ++ RecvResult.error err :: rest)
    (hne : ∀ c ∈ cs, c ≠ []) :
    main w f =
      { events := traceToOpen w f apiKey userMessage
          ++ List.replicate (cs.length + 1) Event.recv
        stdout := concatTexts (cs.map firstText)
        stderr := ["Stream error: " ++ err ++ "\n"]
        exit := Exit.fatal } := by
  rw [main_of_opened hopen]
  unfold consumeStream
  rw [hrecvs, recvLoop_chunks cs hne]
  simp [recvLoop]

/-- A run whose stream gives chunks with a fragment each and then a chunk
with none. -/
theorem main_index_panic {w : World} {f : Flags} {apiKey userMessage : String}
    {s : StreamHandle} (hopen : StreamOpened w f apiKey userMessage s)
    (cs : List (List ContentBlock)) (rest : List RecvResult)
    (hrecvs : s.recvs = cs.map RecvResult.chunk ++ RecvResult.chunk [] :: rest)
    (hne : ∀ c ∈ cs, c ≠ []) :
    main w f =
      { events := traceToOpen w f apiKey userMessage
          ++ List.replicate (cs.length + 1) Event.recv ++ [Event.close]
        stdout := concatTexts (cs.map firstText)
        stderr := ["panic: runtime error: index out of range [0] with length 0"]
        exit := Exit.panicked } := by
  rw [main_of_opened hopen]
  unfold consumeStream
  rw [hrecvs, recvLoop_chunks cs hne]
  simp [recvLoop]

/-- The four `Printf` calls produce the layout with two newline characters
both before the output token line and before the input token line. -/
theorem statsBlock_layout (w : World) (u : Usage) :
    statsBlock w u = statsLayout "\n\n" "\n\n" w u := by
  have h1 : "\n\nTokens generated: " = "\n\n" ++ "Tokens generated: " := rfl
  have h2 : "\n\nInput token count: " = "\n\n" ++ "Input token count: " := rfl
  unfold statsBlock statsLayout line
  rw [h1, h2]
  simp only [String.append_assoc]

/-- Input resolution makes no network call. -/
theorem resolveInput_no_network (w : World) (f : Flags) :
    (resolveInput w f).1.filter Event.isNetworkCall = [] := by
  unfold resolveInput
  split
  · split <;> simp [Event.isNetworkCall]
  · split <;> simp

theorem filter_replicate_recv (n : Nat) :
    (List.replicate n Event.recv).filter Event.isNetworkCall = List.replicate n Event.recv := by
  induction n with
  | zero => rfl
  | succ n ih => simp [List.replicate_succ, Event.isNetworkCall]

/-- When every chunk has exactly one fragment, the first fragments are all
the fragments. -/
theorem concat_first_eq_all (cs : List (List ContentBlock)) (hone : ∀ c ∈ cs, c.length = 1) :
    concatTexts (cs.map firstText) = concatTexts (cs.map allText) := by
  induction cs with
  | nil => rfl
  | cons c cs ih =>
    have hc : c.length = 1 := hone c (List.mem_cons_self _ _)
    have hfirst : firstText c = allText c := by
      match c, hc with
      | [b], _ => simp [firstText, allText, concatTexts]
    simp only [List.map_cons, concatTexts, hfirst,
      ih (fun d hd => hone d (List.mem_cons_of_mem _ hd))]

/-- The network calls up to the opening of the stream are the open call. -/
theorem networkCalls_traceToOpen (w : World) (f : Flags) (apiKey userMessage : String) :
    (traceToOpen w f apiKey userMessage).filter Event.isNetworkCall =
      [Event.createMessagesStream (buildRequest f userMessage)] := by
  simp [traceToOpen, List.filter_cons, List.filter_append, resolveInput_no_network,
    Event.isNetworkCall]

/-- A run never panics when no stream the remote side can open holds a chunk
without fragments. -/
theorem main_no_panic (w : World) (f : Flags)
    (hne : ∀ apiKey req s, w.createMessagesStream apiKey req = .ok s →
      ∀ c, RecvResult.chunk c ∈ s.recvs → c ≠ []) :
    (main w f).exit ≠ Exit.panicked := by
  unfold main
  cases hkey : w.lookupEnv with
  | none => simp
  | some apiKey =>
    rcases hri : resolveInput w f with ⟨reads, res⟩
    cases res with
    | error msg => simp
    | ok userMessage =>
      simp only
      cases hopen : w.createMessagesStream apiKey (buildRequest f userMessage) with
      | error err => simp
      | ok s =>
        simp only [consumeStream_exit]
        have hloop := recvLoop_no_panic s.recvs (hne apiKey _ s hopen)
          { recvCalls := 0, printed := "" }
        split <;> simp_all

/-! ## C1: the single outbound request -/

/-- C1. With the credential present and exactly one of `-input-file`
(readable) and `-input-text` non-empty, the run passes exactly one request to
`CreateMessagesStream`; it carries the configured model, the configured
max-tokens value, the fixed system prompt, `Stream = true` and a single
user-role message whose content is the resolved input: the file content when
the file flag is set, the literal text when the text flag is set. -/
theorem main_issues_single_request (w : World) (f : Flags) (apiKey content : String)
    (hkey : w.lookupEnv = some apiKey)
    (hone : (f.inputFile ≠ "" ∧ f.inputText = "" ∧ w.readFile f.inputFile = .ok content) ∨
      (f.inputFile = "" ∧ f.inputText ≠ "" ∧ content = f.inputText)) :
    requestsIssued (main w f) =
      [{ Model := f.model
         MaxTokens := f.maxTokens
         System := systemPrompt
         Messages := [{ Role := MessagesRole.MessagesRoleUser, Content := content }]
         Stream := true }] := by
  have hri : resolveInput w f =
      ((if f.inputFile ≠ "" then [Event.readFile f.inputFile] else []), .ok content) := by
    rcases hone with ⟨h1, _, h3⟩ | ⟨h1, h2, h3⟩
    · simp [resolveInput, h1, h3]
    · simp [resolveInput, h1, h2, h3]
  unfold main
  rw [hkey]
  simp only [hri]
  cases hopen : w.createMessagesStream apiKey (buildRequest f content) with
  | error err =>
    by_cases hf : f.inputFile = "" <;> simp [requestsIssued, buildRequest, hf]
  | ok s =>
    rw [requestsIssued_consumeStream]
    by_cases hf : f.inputFile = "" <;> simp [buildRequest, hf]

/-- C1 at a concrete input: `-input-text` alone. -/
theorem main_issues_single_request_witness :
    requestsIssued (main (sampleWorld greetingRecvs) helloFlags) =
      [{ Model := "claude-3-haiku-20240307"
         MaxTokens := 200
         System := systemPrompt
         Messages := [{ Role := MessagesRole.MessagesRoleUser,
                        Content := "Hello world, this is a test." }]
         Stream := true }] :=
  main_issues_single_request (sampleWorld greetingRecvs) helloFlags "sk-test"
    "Hello world, this is a test." rfl (Or.inr ⟨rfl, by decide, rfl⟩)

/-! ## C2: the runtime check on the two input flags -/

/-- C2, counterexample. With both `-input-file` (readable) and `-input-text`
non-empty the run is not stopped by a configuration error: the file content is
sent in a request and the process returns normally. -/
theorem both_inputs_reach_network :
    bothFlags.inputFile ≠ "" ∧ bothFlags.inputText ≠ "" ∧
      requestsIssued (main (sampleWorld shortRecvs) bothFlags) =
        [buildRequest bothFlags "file body"] ∧
      (main (sampleWorld shortRecvs) bothFlags).exit = Exit.returned ∧
      (main (sampleWorld shortRecvs) bothFlags).stderr = [] := by
  refine ⟨by decide, by decide, rfl, rfl, rfl⟩

/-- C2, amended. When both input flags are empty the run ends in a fatal
configuration error with no network call; when `-input-file` is non-empty the
value of `-input-text` is ignored (the file takes precedence, there is no
error for giving both); and a network call is made only when at least one of
the two flags is non-empty. -/
theorem input_flags_gate (w : World) (f : Flags) :
    (f.inputFile = "" ∧ f.inputText = "" →
      (main w f).exit = Exit.fatal ∧ (main w f).stdout = "" ∧ networkCalls (main w f) = [] ∧
        ((main w f).stderr = ["ANTHROPIC_API_KEY environment variable is not set"] ∨
          (main w f).stderr = ["Either input-file or input-text must be provided"])) ∧
    (f.inputFile ≠ "" → main w f = main w { f with inputText := "" }) ∧
    (networkCalls (main w f) ≠ [] → f.inputFile ≠ "" ∨ f.inputText ≠ "") := by
  have hempty : f.inputFile = "" ∧ f.inputText = "" →
      (main w f).exit = Exit.fatal ∧ (main w f).stdout = "" ∧ networkCalls (main w f) = [] ∧
        ((main w f).stderr = ["ANTHROPIC_API_KEY environment variable is not set"] ∨
          (main w f).stderr = ["Either input-file or input-text must be provided"]) := by
    rintro ⟨h1, h2⟩
    unfold main
    cases hkey : w.lookupEnv with
    | none => simp [networkCalls]
    | some apiKey => simp [resolveInput, h1, h2, networkCalls, Event.isNetworkCall]
  refine ⟨hempty, ?_, ?_⟩
  · intro hf
    have hri : resolveInput w { f with inputText := "" } = resolveInput w f := by
      simp [resolveInput, hf]
    simp only [main, hri, buildRequest]
  · intro hnet
    by_contra hcon
    rw [not_or, not_not, not_not] at hcon
    exact hnet (hempty hcon).2.2.1

/-- C2, amended, at concrete inputs: no flag given, and both flags given. -/
theorem input_flags_gate_witness :
    (main (sampleWorld greetingRecvs) defaultFlags).exit = Exit.fatal ∧
      main (sampleWorld greetingRecvs) bothFlags =
        main (sampleWorld greetingRecvs) { bothFlags with inputText := "" } :=
  ⟨((input_flags_gate (sampleWorld greetingRecvs) defaultFlags).1 ⟨rfl, rfl⟩).1,
    (input_flags_gate (sampleWorld greetingRecvs) bothFlags).2.1 (by decide)⟩

/-! ## C7: missing credential -/

/-- C7. When the `ANTHROPIC_API_KEY` variable is absent the run ends through
`log.Fatal` with status 1 whatever the flags are, and it has made no external
call at all: no client is created, no file is read, no network call is made. -/
theorem missing_credential_is_fatal (w : World) (f : Flags) (hkey : w.lookupEnv = none) :
    (main w f).exit = Exit.fatal ∧ (main w f).exit.status = some 1 ∧
      (main w f).events = [] ∧ networkCalls (main w f) = [] ∧ filesRead (main w f) = [] ∧
      (main w f).stdout = "" ∧
      (main w f).stderr = ["ANTHROPIC_API_KEY environment variable is not set"] := by
  simp [main, hkey, networkCalls, filesRead, Exit.status]

/-- C7 at a concrete input: no credential, `-input-file` set to a readable file and `-input-text` set. -/
theorem missing_credential_is_fatal_witness :
    (main noKeyWorld bothFlags).exit = Exit.fatal ∧ (main noKeyWorld bothFlags).events = [] ∧
      filesRead (main noKeyWorld bothFlags) = [] :=
  have h := missing_credential_is_fatal noKeyWorld bothFlags rfl
  ⟨h.1, h.2.2.1, h.2.2.2.2.1⟩

/-! ## C8: no input given -/

/-- C8. With the credential present and both `-input-file` and `-input-text`
empty, the run makes no network call (no request is passed to
`CreateMessagesStream`), writes nothing to standard output and ends through
`log.Fatal` with status 1. -/
theorem no_input_is_fatal (w : World) (f : Flags) (apiKey : String)
    (hkey : w.lookupEnv = some apiKey) (hfile : f.inputFile = "") (htext : f.inputText = "") :
    networkCalls (main w f) = [] ∧ requestsIssued (main w f) = [] ∧
      (main w f).stdout = "" ∧ (main w f).exit = Exit.fatal ∧
      (main w f).exit.status = some 1 ∧
      (main w f).stderr = ["Either input-file or input-text must be provided"] := by
  simp [main, hkey, resolveInput, hfile, htext, networkCalls, requestsIssued,
    Event.isNetworkCall, Exit.status]

/-- C8 at a concrete input: credential set, no flag given. -/
theorem no_input_is_fatal_witness :
    networkCalls (main (sampleWorld greetingRecvs) defaultFlags) = [] ∧
      (main (sampleWorld greetingRecvs) defaultFlags).exit.status = some 1 :=
  have h := no_input_is_fatal (sampleWorld greetingRecvs) defaultFlags "sk-test" rfl rfl rfl
  ⟨h.1, h.2.2.2.2.1⟩

/-! ## C9: unreadable input file -/

/-- C9. With the credential present and a non-empty `-input-file` whose read
fails, the run ends through `log.Fatalf` with status 1, the logged message
carries the read error, nothing is written to standard output and no network
call is made; the value of `-input-text` plays no part. -/
theorem unreadable_file_is_fatal (w : World) (f : Flags) (apiKey err : String)
    (hkey : w.lookupEnv = some apiKey) (hfile : f.inputFile ≠ "")
    (hread : w.readFile f.inputFile = .error err) :
    (main w f).exit = Exit.fatal ∧ (main w f).exit.status = some 1 ∧
      (main w f).stderr = ["Error reading input file: " ++ err ++ "\n"] ∧
      (main w f).stdout = "" ∧ networkCalls (main w f) = [] ∧
      requestsIssued (main w f) = [] := by
  simp [main, hkey, resolveInput, hfile, hread, networkCalls, requestsIssued,
    Event.isNetworkCall, Exit.status]

/-- C9 at a concrete input: a path that does not exist, with `-input-text`
given as well. -/
theorem unreadable_file_is_fatal_witness :
    (main (sampleWorld greetingRecvs) missingFileFlags).stderr =
        ["Error reading input file: open missing.txt: no such file or directory\n"] ∧
      networkCalls (main (sampleWorld greetingRecvs) missingFileFlags) = [] :=
  have h := unreadable_file_is_fatal (sampleWorld greetingRecvs) missingFileFlags "sk-test"
    "open missing.txt: no such file or directory" rfl (by decide) rfl
  ⟨h.2.2.1, h.2.2.2.2.1⟩

/-! ## C3: closing the stream handle -/

/-- C3, the code at the failing input. A stream that gives one chunk and then
a non-EOF error: the run ends through `log.Fatalf` after two `Recv` calls and
`stream.Close` is never executed, whereas the same stream ending with `io.EOF`
instead has `stream.Close` as its last call, and so has a run ended by the
index panic. -/
theorem stream_error_exit_skips_close :
    (main (sampleWorld failingRecvs) helloFlags).exit = Exit.fatal ∧
      (main (sampleWorld failingRecvs) helloFlags).events =
        [Event.newClient "sk-test",
          Event.createMessagesStream (buildRequest helloFlags "Hello world, this is a test."),
          Event.recv, Event.recv] ∧
      Event.close ∉ (main (sampleWorld failingRecvs) helloFlags).events ∧
      (main (sampleWorld shortRecvs) helloFlags).events =
        (main (sampleWorld failingRecvs) helloFlags).events ++ [Event.close] ∧
      (main (sampleWorld emptyChunkRecvs) helloFlags).events =
        [Event.newClient "sk-test",
          Event.createMessagesStream (buildRequest helloFlags "Hello world, this is a test."),
          Event.recv, Event.close] := by
  refine ⟨rfl, rfl, by decide, rfl, rfl⟩

/-! ## C4: the streamed text -/

/-- C4, counterexample. A single chunk with the two fragments `- Greeting`
and ` noted.` followed by end-of-stream: the text before the statistics block
is `- Greeting` alone, not the concatenation of all the fragments. -/
theorem second_fragment_not_printed :
    allText [{ Text := "- Greeting" }, { Text := " noted." }] = "- Greeting noted." ∧
      (main (sampleWorld twoFragmentRecvs) helloFlags).stdout =
        "- Greeting" ++ statsBlock (sampleWorld twoFragmentRecvs) sampleUsage ∧
      (main (sampleWorld twoFragmentRecvs) helloFlags).stdout ≠
        "- Greeting noted." ++ statsBlock (sampleWorld twoFragmentRecvs) sampleUsage := by
  refine ⟨rfl, rfl, ?_⟩
  intro h
  exact absurd (congrArg String.length h) (by decide)

/-- C4, amended. For a stream that yields chunks, each with at least one text
fragment, followed by the end-of-stream signal, the text on standard output
before the statistics block is the concatenation, in arrival order, of the
first text fragment of every chunk, with nothing inserted between them; this
is the concatenation of all the fragments when every chunk has exactly one. -/
theorem streamed_text_is_first_fragments (w : World) (f : Flags) (apiKey userMessage : String)
    (s : StreamHandle) (cs : List (List ContentBlock)) (rest : List RecvResult)
    (hopen : StreamOpened w f apiKey userMessage s)
    (hrecvs : s.recvs = cs.map RecvResult.chunk ++ RecvResult.eof :: rest)
    (hne : ∀ c ∈ cs, c ≠ []) :
    (main w f).stdout = concatTexts (cs.map firstText) ++ statsBlock w s.usage ∧
      ((∀ c ∈ cs, c.length = 1) →
        concatTexts (cs.map firstText) = concatTexts (cs.map allText)) := by
  exact ⟨by rw [main_clean hopen cs rest hrecvs hne], concat_first_eq_all cs⟩

/-- C4, amended, on the two chunks `- Greeting` and ` noted.`. -/
theorem streamed_text_is_first_fragments_witness :
    (main (sampleWorld greetingRecvs) helloFlags).stdout =
      "- Greeting noted." ++ statsBlock (sampleWorld greetingRecvs) sampleUsage :=
  (streamed_text_is_first_fragments (sampleWorld greetingRecvs) helloFlags "sk-test"
    "Hello world, this is a test." (sampleHandle greetingRecvs)
    [[{ Text := "- Greeting" }], [{ Text := " noted." }]] [] ⟨rfl, rfl, rfl⟩ rfl
    (by decide)).1

/-! ## C5: the statistics block -/

/-- C5, counterexample. On the end-to-end scenario (usage `input:12,
output:6`) the line `Tokens generated: 6` is followed by two empty lines, not
one, before `Input token count: 12`; standard output differs from the layout
the specification gives. -/
theorem stats_block_differs_from_specified :
    (main (sampleWorld greetingRecvs) helloFlags).stdout =
        "- Greeting noted.\n\nTokens generated: 6\n\n\nInput token count: 12\nOutput tokens per Second: 3.00\nTotal Execution Time: 2s\n" ∧
      "- Greeting noted." ++ statsBlockAsSpecified (sampleWorld greetingRecvs) sampleUsage =
        "- Greeting noted.\n\nTokens generated: 6\n\nInput token count: 12\nOutput tokens per Second: 3.00\nTotal Execution Time: 2s\n" ∧
      (main (sampleWorld greetingRecvs) helloFlags).stdout ≠
        "- Greeting noted." ++ statsBlockAsSpecified (sampleWorld greetingRecvs) sampleUsage := by
  refine ⟨rfl, rfl, ?_⟩
  intro h
  exact absurd (congrArg String.length h) (by decide)

/-- C5, amended. On every clean completion with usage totals (input = i,
output = o), what is written to standard output after the streamed summary
text is, in order and with nothing else: two newline characters, the line
`Tokens generated: o`, two newline characters (two empty lines), the line
`Input token count: i`, the line `Output tokens per Second: ` with the
formatted rate, and the line `Total Execution Time: ` with the formatted
duration. -/
theorem stats_block_after_summary (w : World) (f : Flags) (apiKey userMessage : String)
    (s : StreamHandle) (hopen : StreamOpened w f apiKey userMessage s)
    (hclean : (main w f).exit = Exit.returned) :
    (main w f).stdout =
      (recvLoop s.recvs { recvCalls := 0, printed := "" }).1.printed
        ++ ("\n\n" ++ line ("Tokens generated: " ++ toString s.usage.OutputTokens)
          ++ "\n\n" ++ line ("Input token count: " ++ toString s.usage.InputTokens)
          ++ line ("Output tokens per Second: " ++ w.fmtRate s.usage.OutputTokens w.elapsed)
          ++ line ("Total Execution Time: " ++ w.fmtDuration w.elapsed)) := by
  rw [main_of_opened hopen] at hclean ⊢
  unfold consumeStream at hclean ⊢
  rcases hloop : recvLoop s.recvs { recvCalls := 0, printed := "" } with ⟨st, x⟩
  rw [hloop] at hclean
  cases x <;> simp at hclean
  simp only [statsBlock_layout, statsLayout]

/-- C5, amended, on the end-to-end scenario with usage `input:12, output:6`. -/
theorem stats_block_after_summary_witness :
    (main (sampleWorld greetingRecvs) helloFlags).stdout =
      "- Greeting noted." ++ ("\n\n" ++ line "Tokens generated: 6" ++ "\n\n"
        ++ line "Input token count: 12" ++ line "Output tokens per Second: 3.00"
        ++ line "Total Execution Time: 2s") :=
  stats_block_after_summary (sampleWorld greetingRecvs) helloFlags "sk-test"
    "Hello world, this is a test." (sampleHandle greetingRecvs) ⟨rfl, rfl, rfl⟩ rfl

/-! ## C6: leaving the receive loop -/

/-- C6, counterexample. A chunk without fragments followed by `io.EOF`: the
first result that is not a successful chunk is the end-of-stream signal, yet
the run stops at the chunk with a panic after a single `Recv` call, exits with
status 2 and prints no statistics block. -/
theorem empty_chunk_stops_before_eof :
    (main (sampleWorld emptyChunkRecvs) helloFlags).exit = Exit.panicked ∧
      (main (sampleWorld emptyChunkRecvs) helloFlags).exit.status = some 2 ∧
      (main (sampleWorld emptyChunkRecvs) helloFlags).stdout = "" ∧
      networkCalls (main (sampleWorld emptyChunkRecvs) helloFlags) =
        [Event.createMessagesStream (buildRequest helloFlags "Hello world, this is a test."),
          Event.recv] := by
  refine ⟨rfl, rfl, rfl, rfl⟩

/-- C6, amended. For every sequence of `Recv` results on an opened stream in
which the chunks before the first result that is not a successful chunk each
carry at least one fragment, the loop stops at that result: if it is `io.EOF`
the run prints the statistics block after the fragments and returns with
status 0; if it is another error the run ends through `log.Fatalf` with status
1, standard output holds exactly the fragments printed for the preceding
chunks and no statistics block. In both cases `Recv` has been called once per
preceding chunk and once more. -/
theorem loop_stops_at_first_non_chunk (w : World) (f : Flags) (apiKey userMessage : String)
    (s : StreamHandle) (cs : List (List ContentBlock)) (t : RecvResult) (rest : List RecvResult)
    (hopen : StreamOpened w f apiKey userMessage s)
    (hrecvs : s.recvs = cs.map RecvResult.chunk ++ t :: rest)
    (hne : ∀ c ∈ cs, c ≠ []) :
    (t = RecvResult.eof →
      (main w f).exit = Exit.returned ∧ (main w f).exit.status = some 0 ∧
        (main w f).stdout = concatTexts (cs.map firstText) ++ statsBlock w s.usage ∧
        (main w f).stderr = [] ∧
        networkCalls (main w f) = Event.createMessagesStream (buildRequest f userMessage)
          :: List.replicate (cs.length + 1) Event.recv) ∧
    (∀ err, t = RecvResult.error err →
      (main w f).exit = Exit.fatal ∧ (main w f).exit.status = some 1 ∧
        (main w f).stdout = concatTexts (cs.map firstText) ∧
        (main w f).stderr = ["Stream error: " ++ err ++ "\n"] ∧
        networkCalls (main w f) = Event.createMessagesStream (buildRequest f userMessage)
          :: List.replicate (cs.length + 1) Event.recv) := by
  constructor
  · intro ht
    subst ht
    rw [main_clean hopen cs rest hrecvs hne]
    simp [networkCalls, Exit.status, List.filter_append, networkCalls_traceToOpen,
      filter_replicate_recv, Event.isNetworkCall]
  · intro err ht
    subst ht
    rw [main_stream_error hopen cs err rest hrecvs hne]
    simp [networkCalls, Exit.status, List.filter_append, networkCalls_traceToOpen,
      filter_replicate_recv]

/-- C6, amended, on one chunk followed by a stream error and a further chunk
that is never received. -/
theorem loop_stops_at_first_non_chunk_witness :
    (main (sampleWorld failingRecvs) helloFlags).exit = Exit.fatal ∧
      (main (sampleWorld failingRecvs) helloFlags).exit.status = some 1 ∧
      (main (sampleWorld failingRecvs) helloFlags).stdout = "- Greeting" ∧
      (main (sampleWorld failingRecvs) helloFlags).stderr = ["Stream error: unexpected EOF\n"] ∧
      networkCalls (main (sampleWorld failingRecvs) helloFlags) =
        [Event.createMessagesStream (buildRequest helloFlags "Hello world, this is a test."),
          Event.recv, Event.recv] :=
  (loop_stops_at_first_non_chunk (sampleWorld failingRecvs) helloFlags "sk-test"
    "Hello world, this is a test." (sampleHandle failingRecvs)
    [[{ Text := "- Greeting" }]] (.error "unexpected EOF") [.chunk [{ Text := " noted." }]]
    ⟨rfl, rfl, rfl⟩ rfl (by decide)).2 "unexpected EOF" rfl

/-! ## C10: indexing the first fragment -/

/-- C10. One iteration of the loop on a successfully received chunk appends
exactly the text of the chunk's first fragment to standard output, with no
newline and no other fragment, when the chunk has at least one fragment, and
fails with an index-out-of-range panic when it has none (a run that reaches
such a chunk ends with the panic, after the fragments printed so far); hence a
run in which every received chunk carries at least one fragment never reaches
the indexing error. -/
theorem recv_chunk_prints_first_fragment :
    (∀ (b : ContentBlock) (bs : List ContentBlock) (rest : List RecvResult) (st : LoopState),
      recvLoop (RecvResult.chunk (b :: bs) :: rest) st =
        recvLoop rest { recvCalls := st.recvCalls + 1, printed := st.printed ++ b.Text }) ∧
    (∀ (rest : List RecvResult) (st : LoopState),
      recvLoop (RecvResult.chunk [] :: rest) st =
        ({ recvCalls := st.recvCalls + 1, printed := st.printed }, LoopExit.indexOutOfRange)) ∧
    (∀ (w : World) (f : Flags) (apiKey userMessage : String) (s : StreamHandle)
      (cs : List (List ContentBlock)) (rest : List RecvResult),
      StreamOpened w f apiKey userMessage s →
      s.recvs = cs.map RecvResult.chunk ++ RecvResult.chunk [] :: rest →
      (∀ c ∈ cs, c ≠ []) →
      (main w f).exit = Exit.panicked ∧ (main w f).stdout = concatTexts (cs.map firstText)) ∧
    (∀ (w : World) (f : Flags),
      (∀ apiKey req s, w.createMessagesStream apiKey req = .ok s →
        ∀ c, RecvResult.chunk c ∈ s.recvs → c ≠ []) →
      (main w f).exit ≠ Exit.panicked) := by
  refine ⟨fun _ _ _ _ => rfl, fun _ _ => rfl, ?_, main_no_panic⟩
  intro w f apiKey userMessage s cs rest hopen hrecvs hne
  rw [main_index_panic hopen cs rest hrecvs hne]
  exact ⟨rfl, rfl⟩

/-- C10 on the two chunks `- Greeting` and ` noted.`, each with one fragment,
where the run does not panic, and on a chunk without fragments, where it does. -/
theorem recv_chunk_prints_first_fragment_witness :
    (main (sampleWorld greetingRecvs) helloFlags).exit ≠ Exit.panicked ∧
      (main (sampleWorld emptyChunkRecvs) helloFlags).exit = Exit.panicked :=
  ⟨recv_chunk_prints_first_fragment.2.2.2 (sampleWorld greetingRecvs) helloFlags
    (fun _ _ s hs c hc => by
      have hs2 : s = sampleHandle greetingRecvs := (Except.ok.inj hs).symm
      subst hs2
      simp only [sampleHandle, greetingRecvs, List.mem_cons, RecvResult.chunk.injEq,
        List.mem_singleton, reduceCtorEq, or_false, List.not_mem_nil] at hc
      rcases hc with rfl | rfl <;> simp),
    (recv_chunk_prints_first_fragment.2.2.1 (sampleWorld emptyChunkRecvs) helloFlags "sk-test"
      "Hello world, this is a test." (sampleHandle emptyChunkRecvs) [] [RecvResult.eof]
      ⟨rfl, rfl, rfl⟩ rfl (by simp)).1⟩

end Summariser
